import Mathlib

/-!
Shallow embedding of the caching / output-normalization core of the
yfinance-api repository (files `app/utils/yfinance_data_manager.py`,
`app/services/cache_service.py`, `app/core/cache.py`), together with
theorems settling the specification claims about that core.

Python values reachable from the wrapped data-producing layer are modelled
by the inductive type `PyVal`; Python floats are modelled symbolically by
`PyFloat` (a finite value, NaN, +Infinity, -Infinity), since only
finiteness matters to the sanitizer.
-/

/-- Model of a Python float: a finite value (magnitude abstracted to an
integer, which is all the sanitizer inspects), NaN, or ±Infinity. -/
inductive PyFloat where
  | finite (val : Int)
  | nan
  | inf
  | ninf
deriving DecidableEq

/-- `math.isnan` / `np.isnan` on the model. -/
def PyFloat.isNan : PyFloat → Bool
  | .nan => true
  | _ => false

/-- `math.isinf` / `np.isinf` on the model. -/
def PyFloat.isInf : PyFloat → Bool
  | .inf => true
  | .ninf => true
  | _ => false

/-- A Python dictionary / Series-index key: a string or an integer
(the two key shapes the data layer produces).  `str(k)` is `PyKey.toStr`. -/
inductive PyKey where
  | s (v : String)
  | i (v : Int)
deriving DecidableEq

/-- Python `str()` applied to a key. -/
def PyKey.toStr : PyKey → String
  | .s v => v
  | .i v => toString v

/-- Model of a Python value reachable from the yfinance layer.

* `frame idx cols rows` models a `pd.DataFrame`: `idx = Option.none` is a
  `RangeIndex`; `idx = Option.some (name, vals)` is a non-range index with
  one value per row (`reset_index` promotes it to a leading column `name`).
  `cols` are the column names, `rows` the cell values row by row.
* `series entries` models a `pd.Series` as its (index key, value) pairs.
* `npInt`/`npFloat`/`npBool` model boxed NumPy scalars (`np.integer`,
  `np.floating`, `np.bool_`); `.item()` unwraps them to the native value.
* `datetime`/`date` carry their `isoformat()` string.
* `obj r` is any other leaf object (identified by its repr), which the
  sanitizer returns unchanged. -/
inductive PyVal where
  | none
  | bool (b : Bool)
  | int (n : Int)
  | float (f : PyFloat)
  | str (s : String)
  | datetime (iso : String)
  | date (iso : String)
  | npInt (n : Int)
  | npFloat (f : PyFloat)
  | npBool (b : Bool)
  | ndarray (xs : List PyVal)
  | list (xs : List PyVal)
  | dict (kvs : List (PyKey × PyVal))
  | set (xs : List PyVal)
  | frame (idx : Option (String × List PyVal)) (cols : List String)
      (rows : List (List PyVal))
  | series (entries : List (PyKey × PyVal))
  | obj (r : String)

mutual

/-- Embedding of `process_yfinance_output`
(`app/utils/yfinance_data_manager.py`, lines 153-225).  The branches
appear in the source's `isinstance` order; in particular the NumPy-scalar
branch (`np.integer, np.floating, np.bool_` → `.item()`, line 203) fires
BEFORE the NaN/Infinity branch (line 207), exactly as in the source. -/
def process_yfinance_output : PyVal → PyVal
  | .none => .none
  | .frame idx cols rows =>
      -- `data.empty` is true when either axis has length 0; then `[]`.
      if rows.isEmpty || cols.isEmpty then .list []
      else
        match idx with
        | Option.none => .list (processRecords cols rows)
        | Option.some (name, vals) =>
            -- non-RangeIndex: `reset_index()` prepends the index column
            .list (processRecordsIdx name vals cols rows)
  | .series entries => .dict (processEntries entries)
  | .datetime iso => .str iso
  | .date iso => .str iso
  | .npInt n => .int n
  | .npFloat f => .float f      -- `data.item()`: unwraps, no NaN check here
  | .npBool b => .bool b
  | .float f => if f.isNan || f.isInf then .none else .float f
  | .ndarray xs => .list (processList xs)
  | .list xs => .list (processList xs)
  | .dict kvs => .dict (processEntries kvs)
  | .set xs => .list (processList xs)
  | .bool b => .bool b
  | .int n => .int n
  | .str s => .str s
  | .obj r => .obj r
termination_by v => sizeOf v
decreasing_by all_goals (simp_wf <;> omega)

/-- Element-wise recursion for ndarray / list / set contents. -/
def processList : List PyVal → List PyVal
  | [] => []
  | x :: xs => process_yfinance_output x :: processList xs
termination_by xs => sizeOf xs
decreasing_by all_goals (simp_wf <;> omega)

/-- `{str(k): process_yfinance_output(v) for k, v in ...}` for dicts and
for a Series' (index, value) pairs. -/
def processEntries : List (PyKey × PyVal) → List (PyKey × PyVal)
  | [] => []
  | (k, v) :: rest => (PyKey.s k.toStr, process_yfinance_output v) :: processEntries rest
termination_by l => sizeOf l
decreasing_by all_goals (simp_wf <;> omega)

/-- One DataFrame row turned into a record: column name (already a
string) paired with the processed cell. -/
def processRecord : List String → List PyVal → List (PyKey × PyVal)
  | _, [] => []
  | [], _ :: _ => []
  | c :: cs, v :: vs => (PyKey.s c, process_yfinance_output v) :: processRecord cs vs
termination_by cs vs => sizeOf vs
decreasing_by all_goals (simp_wf <;> omega)

/-- `df.iterrows()` over a RangeIndex DataFrame. -/
def processRecords (cols : List String) : List (List PyVal) → List PyVal
  | [] => []
  | row :: rest => .dict (processRecord cols row) :: processRecords cols rest
termination_by rows => sizeOf rows
decreasing_by all_goals (simp_wf <;> omega)

/-- `df.iterrows()` after `reset_index()`: each record starts with the
promoted index column. -/
def processRecordsIdx (name : String) : List PyVal → List String →
    List (List PyVal) → List PyVal
  | [], _, _ => []
  | _ :: _, _, [] => []
  | iv :: ivs, cols, row :: rest =>
      .dict ((PyKey.s name, process_yfinance_output iv) :: processRecord cols row)
        :: processRecordsIdx name ivs cols rest
termination_by ivs cols rows => sizeOf ivs + sizeOf rows
decreasing_by all_goals (simp_wf <;> omega)

end

mutual

/-- `true` iff some float (native or boxed) inside the value is NaN or
±Infinity — the property the sanitized output must never have. -/
def hasBadFloat : PyVal → Bool
  | .float f => f.isNan || f.isInf
  | .npFloat f => f.isNan || f.isInf
  | .ndarray xs => hasBadFloatList xs
  | .list xs => hasBadFloatList xs
  | .set xs => hasBadFloatList xs
  | .dict kvs => hasBadFloatEntries kvs
  | .series kvs => hasBadFloatEntries kvs
  | .frame idx _ rows =>
      (match idx with
       | Option.some (_, vals) => hasBadFloatList vals
       | Option.none => false) || hasBadFloatRows rows
  | _ => false
termination_by v => sizeOf v
decreasing_by all_goals (simp_wf <;> omega)

def hasBadFloatList : List PyVal → Bool
  | [] => false
  | x :: xs => hasBadFloat x || hasBadFloatList xs
termination_by xs => sizeOf xs
decreasing_by all_goals (simp_wf <;> omega)

def hasBadFloatEntries : List (PyKey × PyVal) → Bool
  | [] => false
  | (_, v) :: rest => hasBadFloat v || hasBadFloatEntries rest
termination_by l => sizeOf l
decreasing_by all_goals (simp_wf <;> omega)

def hasBadFloatRows : List (List PyVal) → Bool
  | [] => false
  | row :: rest => hasBadFloatList row || hasBadFloatRows rest
termination_by rows => sizeOf rows
decreasing_by all_goals (simp_wf <;> omega)

end

/-- Python `str(x)` on a leaf value, as interpolated into the
`TickerNotFoundError` detail text (identifiers are strings in practice;
the remaining shapes are abstracted by a stable tag). -/
def pyStrVal : PyVal → String
  | .none => "None"
  | .bool true => "True"
  | .bool false => "False"
  | .int n => toString n
  | .npInt n => toString n
  | .str s => s
  | .datetime iso => iso
  | .date iso => iso
  | .obj r => r
  | _ => "object"

/-- Exceptions the modelled layers raise or see.  `generic msg` stands for
an arbitrary `Exception` thrown by a wrapped operation, identified by its
`str(e)` text. -/
inductive PyExn where
  | tickerNotFound (ticker : PyVal)
  | yfinanceError (detail : String)
  | generic (msg : String)

/-- `str(e)` for an exception, as consulted by `clean_yfinance_data`'s
generic handler.  (`TickerNotFoundError` is caught before that handler,
so its text is never inspected; its rendering here follows
`app/core/exceptions.py`, line 82.) -/
def PyExn.text : PyExn → String
  | .tickerNotFound t => "Ticker \x27" ++ pyStrVal t ++ "\x27 not found"
  | .yfinanceError d => d
  | .generic m => m

/-- Python truthiness (`bool(x)`) for the values the identifier check can
see.  (In CPython, `bool` of a DataFrame/Series/multi-element ndarray
raises; identifiers in this API are path-parameter strings, so those
shapes are unreachable at the `if identifier:` checks — they are given a
total value here.) -/
def pyTruthy : PyVal → Bool
  | .none => false
  | .bool b => b
  | .int n => n != 0
  | .float (.finite v) => v != 0
  | .float _ => true
  | .str s => !s.isEmpty
  | .datetime _ => true
  | .date _ => true
  | .npInt n => n != 0
  | .npFloat (.finite v) => v != 0
  | .npFloat _ => true
  | .npBool b => b
  | .ndarray xs => !xs.isEmpty
  | .list xs => !xs.isEmpty
  | .dict kvs => !kvs.isEmpty
  | .set xs => !xs.isEmpty
  | .frame _ _ _ => true
  | .series _ => true
  | .obj _ => true

/-- Truthiness of the `Optional` identifier (`if identifier:`). -/
def pyTruthyOpt : Option PyVal → Bool
  | Option.none => false
  | Option.some v => pyTruthy v

/-- First-match lookup in an association list, modelling `kwargs[name]` /
`name in kwargs` (dict keys are unique; the store also reuses this with
newest-binding-first contents, giving overwrite semantics). -/
def lookupKw : List (String × PyVal) → String → Option PyVal
  | [], _ => Option.none
  | (k, v) :: rest, name => if k = name then Option.some v else lookupKw rest name

/-- Embedding of `_extract_identifier`
(`app/utils/yfinance_data_manager.py`, lines 108-128): the `ticker` /
`market` / `sector` / `industry` / `query` keyword chain. -/
def _extract_identifier (kwargs : List (String × PyVal)) : Option PyVal :=
  match lookupKw kwargs "ticker" with
  | Option.some v => Option.some v
  | Option.none =>
  match lookupKw kwargs "market" with
  | Option.some v => Option.some v
  | Option.none =>
  match lookupKw kwargs "sector" with
  | Option.some v => Option.some v
  | Option.none =>
  match lookupKw kwargs "industry" with
  | Option.some v => Option.some v
  | Option.none =>
  match lookupKw kwargs "query" with
  | Option.some v => Option.some v
  | Option.none => Option.none

/-- Embedding of `_is_empty_result`
(`app/utils/yfinance_data_manager.py`, lines 131-150): `None`, an empty
DataFrame/Series, or a falsy list/dict/str count as empty. -/
def _is_empty_result : PyVal → Bool
  | .none => true
  | .frame _ cols rows => rows.isEmpty || cols.isEmpty
  | .series entries => entries.isEmpty
  | .list xs => xs.isEmpty
  | .dict kvs => kvs.isEmpty
  | .str s => s.isEmpty
  | _ => false

/-- Is `needle` a contiguous sublist of `hay`? -/
def hasSubList : List Char → List Char → Bool
  | needle, [] => needle.isEmpty
  | needle, c :: rest => List.isPrefixOf needle (c :: rest) || hasSubList needle rest

/-- `"No data found" in str(e)` — substring test on the model. -/
def strContainsSub (needle hay : String) : Bool :=
  hasSubList needle.data hay.data

/-- Embedding of `clean_yfinance_data`'s `sync_wrapper`
(`app/utils/yfinance_data_manager.py`, lines 68-100; `async_wrapper`,
lines 35-66, has identical logic with an `await`).  The wrapped operation
`f` is a function of the keyword arguments that either returns a value or
raises (`Except.error`).  The outer `match` models the
`except TickerNotFoundError: raise` / `except Exception as e:` clauses. -/
def clean_yfinance_data
    (f : List (String × PyVal) → Except PyExn PyVal)
    (kwargs : List (String × PyVal)) : Except PyExn PyVal :=
  let identifier := _extract_identifier kwargs
  let body : Except PyExn PyVal :=
    match f kwargs with
    | Except.error e => Except.error e
    | Except.ok result =>
        if _is_empty_result result then
          if pyTruthyOpt identifier then
            Except.error (PyExn.tickerNotFound (identifier.getD PyVal.none))
          else Except.ok (PyVal.list [])
        else Except.ok (process_yfinance_output result)
  match body with
  | Except.ok v => Except.ok v
  | Except.error (PyExn.tickerNotFound t) => Except.error (PyExn.tickerNotFound t)
  | Except.error e =>
      if strContainsSub "No data found" e.text && pyTruthyOpt identifier then
        Except.error (PyExn.tickerNotFound (identifier.getD PyVal.none))
      else Except.error (PyExn.yfinanceError e.text)

/-- Python `repr` of a dict key (string or integer). -/
def pyReprKey : PyKey → String
  | .s v => "\x27" ++ v ++ "\x27"
  | .i v => toString v

mutual

/-- Python `repr`-style rendering used by `generate_key`'s
`str(args)` / `str(sorted_kwargs)`.  The exact formatting of Python's
`repr` is abstracted (only its determinism matters to any claim); its
recursive structure follows the value. -/
def pyRepr : PyVal → String
  | .none => "None"
  | .bool true => "True"
  | .bool false => "False"
  | .int n => toString n
  | .float (.finite v) => toString v ++ ".0"
  | .float .nan => "nan"
  | .float .inf => "inf"
  | .float .ninf => "-inf"
  | .str s => "\x27" ++ s ++ "\x27"
  | .datetime iso => "Timestamp(\x27" ++ iso ++ "\x27)"
  | .date iso => "datetime.date(" ++ iso ++ ")"
  | .npInt n => toString n
  | .npFloat (.finite v) => toString v ++ ".0"
  | .npFloat .nan => "nan"
  | .npFloat .inf => "inf"
  | .npFloat .ninf => "-inf"
  | .npBool true => "True"
  | .npBool false => "False"
  | .ndarray xs => "array([" ++ pyReprList xs ++ "])"
  | .list xs => "[" ++ pyReprList xs ++ "]"
  | .dict kvs => "\x7b" ++ pyReprEntries kvs ++ "\x7d"
  | .set xs => "\x7b" ++ pyReprList xs ++ "\x7d"
  | .frame _ _ _ => "DataFrame"
  | .series _ => "Series"
  | .obj r => r
termination_by v => sizeOf v
decreasing_by all_goals (simp_wf <;> omega)

def pyReprList : List PyVal → String
  | [] => ""
  | [x] => pyRepr x
  | x :: y :: rest => pyRepr x ++ ", " ++ pyReprList (y :: rest)
termination_by xs => sizeOf xs
decreasing_by all_goals (simp_wf <;> omega)

def pyReprEntries : List (PyKey × PyVal) → String
  | [] => ""
  | [(k, v)] => pyReprKey k ++ ": " ++ pyRepr v
  | (k, v) :: e :: rest =>
      pyReprKey k ++ ": " ++ pyRepr v ++ ", " ++ pyReprEntries (e :: rest)
termination_by l => sizeOf l
decreasing_by all_goals (simp_wf <;> omega)

end

/-- `str(args)` on the positional-argument tuple (a one-element Python
tuple prints a trailing comma). -/
def pyStrTuple (args : List PyVal) : String :=
  match args with
  | [x] => "(" ++ pyRepr x ++ ",)"
  | _ => "(" ++ String.intercalate ", " (args.map pyRepr) ++ ")"

/-- `str(sorted_kwargs)` on the sorted keyword pairs — a Python list of
`(name, value)` tuples. -/
def pyStrPairs (l : List (String × PyVal)) : String :=
  "[" ++ String.intercalate ", "
      (l.map (fun kv => "(\x27" ++ kv.1 ++ "\x27, " ++ pyRepr kv.2 ++ ")")) ++ "]"

/-- `settings.CACHE_PREFIX` default (`app/core/config.py`). -/
def CACHE_PREFIX_SETTING : String := "yfinance_api"

/-- `settings.CACHE_1_DAY` (`app/core/config.py`): 24 * 60 * 60. -/
def CACHE_1_DAY : Int := 24 * 60 * 60

namespace CacheService

/-- Embedding of `CacheService.generate_key`
(`app/services/cache_service.py`, lines 69-97).  `md5hex` abstracts
`hashlib.md5(...).hexdigest()` (an external library function); every
claim about keys depends only on the hash being a function of its input
string.  `pfx` is the source's `prefix` parameter.  Keyword pairs are
sorted by key name (`sorted(kwargs.items())`; dict keys are unique, so
Python's tuple comparison never reaches the values, and sorting by name
alone is faithful). -/
def generate_key (md5hex : String → String) (pfx : String)
    (args : List PyVal) (kwargs : List (String × PyVal)) : String :=
  let keyParts := [pfx]
  let keyParts := if args.isEmpty then keyParts else keyParts ++ [pyStrTuple args]
  let keyParts :=
    if kwargs.isEmpty then keyParts
    else keyParts ++ [pyStrPairs (List.mergeSort kwargs (fun a b => decide (a.1 ≤ b.1)))]
  let keyStr := String.intercalate ":" keyParts
  CACHE_PREFIX_SETTING ++ ":" ++ pfx ++ ":" ++ md5hex keyStr

end CacheService

/-- State of the singleton Redis-backed store.  The boolean flags model
the failure points of the external `redis` / `pickle` libraries at the
`try:` sites of `cache_service.py`: each `true` flag makes the
corresponding library call raise (or, for `pingOk = false`, makes
`ping()` fail).  `data` holds the store contents; `pickle.dumps` /
`pickle.loads` round-trip values exactly, so entries are kept as their
deserialized `PyVal` (newest binding first; `lookupKw` finds the newest,
giving overwrite semantics). -/
structure Store where
  connected : Bool
  pingOk : Bool
  getRaises : Bool
  setRaises : Bool
  pickleRaises : Bool
  unpickleRaises : Bool
  data : List (String × PyVal)

namespace CacheService

/-- Embedding of `CacheService.is_available`
(`app/services/cache_service.py`, lines 53-67): false when the client was
never connected, and false (instead of raising) when `ping()` fails. -/
def is_available (st : Store) : Bool :=
  st.connected && st.pingOk

/-- Embedding of `CacheService.set`
(`app/services/cache_service.py`, lines 99-140).  Returns the success
flag and the updated store; any `pickle.dumps` or Redis failure is caught
and surfaced as `false`, never as an exception.  The `expire` argument
only parameterizes the backend's passive TTL expiry, which is outside the
model. -/
def set (st : Store) (key : String) (value : PyVal) (expire : Option Int)
    (nx : Bool) : Bool × Store :=
  if !is_available st then (false, st)
  else if st.pickleRaises then (false, st)
  else if st.setRaises then (false, st)
  else if nx then
    match lookupKw st.data key with
    | Option.some _ => (false, st)
    | Option.none => (true, { st with data := (key, value) :: st.data })
  else (true, { st with data := (key, value) :: st.data })

/-- Embedding of `CacheService.get`
(`app/services/cache_service.py`, lines 142-170).  `(false, none)` both
on miss and on any backend/deserialization failure; `(true, some v)` on a
hit. -/
def get (st : Store) (key : String) : Bool × Option PyVal :=
  if !is_available st then (false, Option.none)
  else if st.getRaises then (false, Option.none)
  else
    match lookupKw st.data key with
    | Option.none => (false, Option.none)
    | Option.some v =>
        if st.unpickleRaises then (false, Option.none) else (true, Option.some v)

end CacheService

/-- Current UTC instant, reduced to what the TTL computation inspects:
seconds already elapsed in the UTC day plus sub-second microseconds. -/
structure UTCTime where
  secOfDay : Nat
  micro : Nat

/-- Embedding of `calculate_seconds_until_midnight`
(`app/core/cache.py`, lines 135-144) and of the identical inline
computation in `cache_decorator` (`app/services/cache_service.py`, lines
295-302): `int((next_midnight - now).total_seconds())`.  The timedelta
holds `86400*10^6 - elapsed` microseconds; `int()` truncates the positive
total toward zero, which is `Nat` division by `10^6`. -/
def calculate_seconds_until_midnight (now : UTCTime) : Nat :=
  (86400 * 1000000 - (now.secOfDay * 1000000 + now.micro)) / 1000000

/-- The decorator's expiration computation
(`app/services/cache_service.py`, lines 295-302): `expire` unchanged when
`invalidate_at_midnight` is false, else
`min(expire, int(seconds_to_midnight))`. -/
def resolve_ttl (expire : Int) (invalidate_at_midnight : Bool)
    (now : UTCTime) : Int :=
  if invalidate_at_midnight then
    min expire (calculate_seconds_until_midnight now : Int)
  else expire

/-- Configuration captured by `CacheService.cache_decorator(expire,
prefix, invalidate_at_midnight)` applied to a function of qualified name
`qualname`, plus the abstracted `hashlib.md5` digest and the current UTC
instant read by the expiration computation.  `pfx` is the source's
`prefix` parameter. -/
structure DecoConfig where
  md5hex : String → String
  expire : Int
  pfx : Option String
  invalidate_at_midnight : Bool
  qualname : String
  now : UTCTime

namespace CacheService

/-- Embedding of the `sync_wrapper` closure produced by
`CacheService.cache_decorator` (`app/services/cache_service.py`, lines
275-307; `async_wrapper`, lines 241-273, has identical logic with
`await`s).  The wrapped operation `f` takes the positional and keyword
arguments and either returns a value or raises.  Alongside the result the
wrapper threads the store state and a count of how many times `f` has
been invoked (incremented exactly where the source calls `func`). -/
def sync_wrapper (cfg : DecoConfig)
    (f : List PyVal → List (String × PyVal) → Except PyExn PyVal)
    (args : List PyVal) (kwargs : List (String × PyVal))
    (st : Store) (calls : Nat) : Except PyExn PyVal × Store × Nat :=
  if !is_available st then
    (f args kwargs, st, calls + 1)
  else
    let keyPfx := cfg.pfx.getD cfg.qualname
    let cache_key := generate_key cfg.md5hex keyPfx args kwargs
    let (cached, value) := get st cache_key
    if cached then
      (Except.ok (value.getD PyVal.none), st, calls)
    else
      match f args kwargs with
      | Except.error e => (Except.error e, st, calls + 1)
      | Except.ok result =>
          let expiration := resolve_ttl cfg.expire cfg.invalidate_at_midnight cfg.now
          let (_, st2) := set st cache_key result (Option.some expiration) false
          (Except.ok result, st2, calls + 1)

/-- `n` successive invocations of the decorated operation with the same
arguments, threading the store and the invocation counter. -/
def callRepeatedly (cfg : DecoConfig)
    (f : List PyVal → List (String × PyVal) → Except PyExn PyVal)
    (args : List PyVal) (kwargs : List (String × PyVal)) :
    Nat → Store → Nat → Store × Nat
  | 0, st, calls => (st, calls)
  | Nat.succ n, st, calls =>
      let r := sync_wrapper cfg f args kwargs st calls
      callRepeatedly cfg f args kwargs n r.2.1 r.2.2

end CacheService

/-- C1: the claim says NaN/±Infinity inputs, whether native floats or
boxed numeric-library scalars, become `null` in the sanitized output.
The code violates this for boxed scalars: `process_yfinance_output`
matches `np.floating` first (line 203) and returns `data.item()` — a
native float NaN/Infinity — so the NaN/Infinity branch (line 207, whose
`isinstance` tuple lists `np.float64`/`np.float32` unreachably) never
sees it.  A boxed NaN therefore survives sanitization, while a native
NaN is correctly nulled. -/
theorem C1_boxed_nan_escapes_sanitizer :
    process_yfinance_output (PyVal.npFloat PyFloat.nan) = PyVal.float PyFloat.nan ∧
    hasBadFloat (process_yfinance_output (PyVal.npFloat PyFloat.nan)) = true ∧
    process_yfinance_output (PyVal.list [PyVal.npFloat PyFloat.inf])
      = PyVal.list [PyVal.float PyFloat.inf] ∧
    process_yfinance_output (PyVal.float PyFloat.nan) = PyVal.none := by
  refine ⟨?_, ?_, ?_, ?_⟩ <;>
    simp +decide [process_yfinance_output, processList, hasBadFloat,
      PyFloat.isNan, PyFloat.isInf]

/-- C6: the claim says the sanitizer is idempotent.  It is not: at the
boxed-NaN input the first pass yields a native float NaN (see C1) and the
second pass turns that into `null`, so
`sanitize (sanitize x) ≠ sanitize x` at `x = np.float64(nan)`.  The
unreachable `np.float64`/`np.float32` arms of the source's NaN check show
the intended behaviour (NaN → null on the first pass), making this a code
slip rather than a spec error. -/
theorem C6_idempotence_fails_at_boxed_nan :
    process_yfinance_output (process_yfinance_output (PyVal.npFloat PyFloat.nan))
      = PyVal.none ∧
    process_yfinance_output (PyVal.npFloat PyFloat.nan) = PyVal.float PyFloat.nan ∧
    PyVal.none ≠ PyVal.float PyFloat.nan := by
  refine ⟨?_, ?_, ?_⟩ <;>
    simp +decide [process_yfinance_output, PyFloat.isNan, PyFloat.isInf]

/-- C7: the sanitizer is total — modelled as a total Lean function it
evaluates (rather than failing) on every input the claim lists: `None`,
`float(nan)`, `float(inf)`, an empty table, an empty list and dict, a
nested table-of-tables, a set of mixed primitives, a boxed integer `5`;
and an unrecognized leaf is passed through by the final fallback rather
than rejected. -/
theorem C7_sanitizer_total_on_listed_inputs :
    process_yfinance_output PyVal.none = PyVal.none ∧
    process_yfinance_output (PyVal.float PyFloat.nan) = PyVal.none ∧
    process_yfinance_output (PyVal.float PyFloat.inf) = PyVal.none ∧
    process_yfinance_output (PyVal.frame Option.none [] []) = PyVal.list [] ∧
    process_yfinance_output (PyVal.list []) = PyVal.list [] ∧
    process_yfinance_output (PyVal.dict []) = PyVal.dict [] ∧
    process_yfinance_output
        (PyVal.frame Option.none ["a"] [[PyVal.frame Option.none ["b"] [[PyVal.int 1]]]])
      = PyVal.list [PyVal.dict [(PyKey.s "a",
          PyVal.list [PyVal.dict [(PyKey.s "b", PyVal.int 1)]])]] ∧
    process_yfinance_output (PyVal.set [PyVal.str "a", PyVal.int 1, PyVal.bool true])
      = PyVal.list [PyVal.str "a", PyVal.int 1, PyVal.bool true] ∧
    process_yfinance_output (PyVal.npInt 5) = PyVal.int 5 ∧
    process_yfinance_output (PyVal.obj "ExoticLeaf") = PyVal.obj "ExoticLeaf" := by
  refine ⟨?_, ?_, ?_, ?_, ?_, ?_, ?_, ?_, ?_, ?_⟩ <;>
    simp +decide [process_yfinance_output, processList, processEntries,
      processRecord, processRecords, processRecordsIdx,
      PyFloat.isNan, PyFloat.isInf]

/-- C4: when the wrapped operation returns an empty result, the
clean-yfinance-data wrapper raises `TickerNotFoundError` if the keyword
arguments carry a (truthy) identifier under `ticker` / `market` /
`sector` / `industry` / `query`, and returns `[]` when no such keyword
argument is present. -/
theorem C4_empty_result_guard
    (f : List (String × PyVal) → Except PyExn PyVal)
    (kwargs : List (String × PyVal)) (r : PyVal)
    (hf : f kwargs = Except.ok r) (hemp : _is_empty_result r = true) :
    (∀ idv, _extract_identifier kwargs = Option.some idv → pyTruthy idv = true →
        clean_yfinance_data f kwargs = Except.error (PyExn.tickerNotFound idv)) ∧
    (_extract_identifier kwargs = Option.none →
        clean_yfinance_data f kwargs = Except.ok (PyVal.list [])) := by
  constructor
  · intro idv hid htr
    simp [clean_yfinance_data, hf, hemp, hid, pyTruthyOpt, htr]
  · intro hid
    simp [clean_yfinance_data, hf, hemp, hid, pyTruthyOpt]

/-- Witness for C4: an operation returning the empty list, called with
`ticker="ZZZZINVALID"`, raises the not-found signal; with no identifying
keyword argument it returns `[]`. -/
theorem C4_empty_result_guard_witness :
    clean_yfinance_data (fun _ => Except.ok (PyVal.list []))
        [("ticker", PyVal.str "ZZZZINVALID")]
      = Except.error (PyExn.tickerNotFound (PyVal.str "ZZZZINVALID")) ∧
    clean_yfinance_data (fun _ => Except.ok (PyVal.list [])) []
      = Except.ok (PyVal.list []) := by
  constructor
  · exact (C4_empty_result_guard _ _ (PyVal.list []) rfl rfl).1 (PyVal.str "ZZZZINVALID") rfl (by decide)
  · exact (C4_empty_result_guard _ _ (PyVal.list []) rfl rfl).2 rfl

/-- C10: a raw result of `None` or `""` counts as empty in the
clean-yfinance-data wrapper (`_is_empty_result`): with a truthy
identifier present the call raises the not-found signal, with no
identifier it returns `[]`, and in no case is a `None` raw result passed
through as `null`. -/
theorem C10_none_and_empty_string_count_as_empty
    (f : List (String × PyVal) → Except PyExn PyVal)
    (kwargs : List (String × PyVal))
    (hf : f kwargs = Except.ok PyVal.none ∨ f kwargs = Except.ok (PyVal.str "")) :
    (∀ idv, _extract_identifier kwargs = Option.some idv → pyTruthy idv = true →
        clean_yfinance_data f kwargs = Except.error (PyExn.tickerNotFound idv)) ∧
    (_extract_identifier kwargs = Option.none →
        clean_yfinance_data f kwargs = Except.ok (PyVal.list [])) ∧
    clean_yfinance_data f kwargs ≠ Except.ok PyVal.none := by
  have hemp : ∃ r, f kwargs = Except.ok r ∧ _is_empty_result r = true := by
    rcases hf with hf | hf
    · exact ⟨PyVal.none, hf, rfl⟩
    · exact ⟨PyVal.str "", hf, by decide⟩
  rcases hemp with ⟨r, hfr, hr⟩
  refine ⟨?_, ?_, ?_⟩
  · intro idv hid htr
    simp [clean_yfinance_data, hfr, hr, hid, pyTruthyOpt, htr]
  · intro hid
    simp [clean_yfinance_data, hfr, hr, hid, pyTruthyOpt]
  · cases htr : pyTruthyOpt (_extract_identifier kwargs) <;>
      simp [clean_yfinance_data, hfr, hr, htr]

/-- Witness for C10: `None` with an identifier raises; `""` with no
identifier returns `[]`; `None` with no identifier is not passed
through as `null`. -/
theorem C10_none_and_empty_string_witness :
    clean_yfinance_data (fun _ => Except.ok PyVal.none)
        [("query", PyVal.str "msft")]
      = Except.error (PyExn.tickerNotFound (PyVal.str "msft")) ∧
    clean_yfinance_data (fun _ => Except.ok (PyVal.str "")) []
      = Except.ok (PyVal.list []) ∧
    clean_yfinance_data (fun _ => Except.ok PyVal.none) []
      ≠ Except.ok PyVal.none := by
  refine ⟨?_, ?_, ?_⟩
  · exact (C10_none_and_empty_string_count_as_empty _ _ (Or.inl rfl)).1
      (PyVal.str "msft") rfl (by decide)
  · exact (C10_none_and_empty_string_count_as_empty _ _ (Or.inr rfl)).2.1 rfl
  · exact (C10_none_and_empty_string_count_as_empty _ _ (Or.inl rfl)).2.2

/-- Any error surfaced by the cache-aside wrapper is an error of the
wrapped operation, unchanged: the decorator has no handler around
`func`, and all store-layer failures are absorbed inside
`CacheService.get` / `CacheService.set`. -/
theorem sync_wrapper_error_from_f (cfg : DecoConfig)
    (f : List PyVal → List (String × PyVal) → Except PyExn PyVal)
    (args : List PyVal) (kwargs : List (String × PyVal))
    (st : Store) (c : Nat) (e : PyExn)
    (h : (CacheService.sync_wrapper cfg f args kwargs st c).1 = Except.error e) :
    f args kwargs = Except.error e := by
  cases hfa : f args kwargs with
  | error e2 =>
      suffices hse : e2 = e by rw [hse]
      by_cases hav : CacheService.is_available st
      · rcases hget : CacheService.get st
            (CacheService.generate_key cfg.md5hex (cfg.pfx.getD cfg.qualname) args kwargs)
          with ⟨cached, value⟩
        cases cached
        · simpa [CacheService.sync_wrapper, hav, hget, hfa] using h
        · simp [CacheService.sync_wrapper, hav, hget] at h
      · simpa [CacheService.sync_wrapper, hav, hfa] using h
  | ok v =>
      exfalso
      by_cases hav : CacheService.is_available st
      · rcases hget : CacheService.get st
            (CacheService.generate_key cfg.md5hex (cfg.pfx.getD cfg.qualname) args kwargs)
          with ⟨cached, value⟩
        cases cached
        · simp [CacheService.sync_wrapper, hav, hget, hfa] at h
        · simp [CacheService.sync_wrapper, hav, hget] at h
      · simp [CacheService.sync_wrapper, hav, hfa] at h

/-- C5 counterexample: the claim says the sanitize-and-guard layer
propagates a wrapped operation's exception exactly as thrown.  It does
not: `clean_yfinance_data` catches any non-`TickerNotFoundError`
exception and re-raises it as `YFinanceError(str(e))` (lines 91-100), so
an operation raising a generic `"boom"` exception surfaces as
`YFinanceError "boom"`, not as the original exception. -/
theorem C5_wrapped_error_replaced :
    clean_yfinance_data (fun _ => Except.error (PyExn.generic "boom")) []
      = Except.error (PyExn.yfinanceError "boom") ∧
    (Except.error (PyExn.yfinanceError "boom") : Except PyExn PyVal)
      ≠ Except.error (PyExn.generic "boom") := by
  constructor
  · simp +decide [clean_yfinance_data, _extract_identifier, lookupKw,
      pyTruthyOpt, PyExn.text, strContainsSub, hasSubList]
  · simp

/-- C5 amended: the cache-aside decorator propagates the wrapped
operation's exceptions to the caller exactly as thrown (swallowing only
store-layer errors), while `clean_yfinance_data` re-raises only
`TickerNotFoundError` unchanged and converts every other exception of
the wrapped operation: to `TickerNotFoundError` when its message
contains `"No data found"` and a truthy identifier is present, and to
`YFinanceError` carrying the original message otherwise. -/
theorem C5_amended_error_propagation (cfg : DecoConfig)
    (f : List PyVal → List (String × PyVal) → Except PyExn PyVal)
    (args : List PyVal) (kwargs : List (String × PyVal))
    (st : Store) (c : Nat)
    (g : List (String × PyVal) → Except PyExn PyVal)
    (kw : List (String × PyVal)) :
    (∀ e, (CacheService.sync_wrapper cfg f args kwargs st c).1 = Except.error e →
        f args kwargs = Except.error e) ∧
    (CacheService.is_available st = false → ∀ e, f args kwargs = Except.error e →
        (CacheService.sync_wrapper cfg f args kwargs st c).1 = Except.error e) ∧
    (∀ t, g kw = Except.error (PyExn.tickerNotFound t) →
        clean_yfinance_data g kw = Except.error (PyExn.tickerNotFound t)) ∧
    (∀ m, g kw = Except.error (PyExn.generic m) →
        clean_yfinance_data g kw =
          if strContainsSub "No data found" m
              && pyTruthyOpt (_extract_identifier kw) then
            Except.error
              (PyExn.tickerNotFound ((_extract_identifier kw).getD PyVal.none))
          else Except.error (PyExn.yfinanceError m)) := by
  refine ⟨?_, ?_, ?_, ?_⟩
  · intro e h
    exact sync_wrapper_error_from_f cfg f args kwargs st c e h
  · intro hunav e hfa
    simp [CacheService.sync_wrapper, hunav, hfa]
  · intro t hg
    simp [clean_yfinance_data, hg]
  · intro m hg
    simp [clean_yfinance_data, hg, PyExn.text]

/-- Witness for C5's amended theorem, at an unavailable store and
concrete operations raising each exception shape. -/
theorem C5_amended_error_propagation_witness :
    ((fun _ _ => Except.error (PyExn.generic "x")
        : List PyVal → List (String × PyVal) → Except PyExn PyVal) [] []
      = Except.error (PyExn.generic "x")) ∧
    clean_yfinance_data
        (fun _ => Except.error (PyExn.tickerNotFound (PyVal.str "A"))) []
      = Except.error (PyExn.tickerNotFound (PyVal.str "A")) ∧
    clean_yfinance_data (fun _ => Except.error (PyExn.generic "boom2")) []
      = (if strContainsSub "No data found" "boom2"
            && pyTruthyOpt (_extract_identifier []) then
          Except.error (PyExn.tickerNotFound ((_extract_identifier []).getD PyVal.none))
        else Except.error (PyExn.yfinanceError "boom2")) := by
  refine ⟨?_, ?_, ?_⟩
  · exact (C5_amended_error_propagation ⟨fun s => s, 86400, Option.none, false, "op", ⟨0, 0⟩⟩
      (fun _ _ => Except.error (PyExn.generic "x")) [] []
      ⟨false, false, false, false, false, false, []⟩ 0
      (fun _ => Except.error (PyExn.generic "x")) []).1 (PyExn.generic "x") rfl
  · exact (C5_amended_error_propagation ⟨fun s => s, 86400, Option.none, false, "op", ⟨0, 0⟩⟩
      (fun _ _ => Except.error (PyExn.generic "x")) [] []
      ⟨false, false, false, false, false, false, []⟩ 0
      (fun _ => Except.error (PyExn.tickerNotFound (PyVal.str "A"))) []).2.2.1
      (PyVal.str "A") rfl
  · exact (C5_amended_error_propagation ⟨fun s => s, 86400, Option.none, false, "op", ⟨0, 0⟩⟩
      (fun _ _ => Except.error (PyExn.generic "x")) [] []
      ⟨false, false, false, false, false, false, []⟩ 0
      (fun _ => Except.error (PyExn.generic "boom2")) []).2.2.2 "boom2" rfl

/-- With an unavailable store, every pass through the wrapper calls `f`
once and leaves the store untouched. -/
theorem callRepeatedly_of_unavailable (cfg : DecoConfig)
    (f : List PyVal → List (String × PyVal) → Except PyExn PyVal)
    (args : List PyVal) (kwargs : List (String × PyVal)) (st : Store)
    (hunav : CacheService.is_available st = false) :
    ∀ n c, CacheService.callRepeatedly cfg f args kwargs n st c = (st, c + n) := by
  intro n
  induction n with
  | zero => intro c; simp [CacheService.callRepeatedly]
  | succ n ih =>
      intro c
      have hstep : CacheService.sync_wrapper cfg f args kwargs st c
          = (f args kwargs, st, c + 1) := by
        simp [CacheService.sync_wrapper, hunav]
      simp only [CacheService.callRepeatedly, hstep]
      rw [ih (c + 1)]
      have : c + 1 + n = c + (n + 1) := by omega
      rw [this]

/-- C3: if the store is unavailable, `n` calls of the decorated
operation invoke the wrapped operation exactly `n` times, with the store
never touched (no caching); each call returns exactly what `f` returns;
and — for any store state whatsoever, including every modelled
backend/serialization failure — an exception surfaces from the wrapper
only if the wrapped operation itself raised it. -/
theorem C3_unavailable_store_bypass (cfg : DecoConfig)
    (f : List PyVal → List (String × PyVal) → Except PyExn PyVal)
    (args : List PyVal) (kwargs : List (String × PyVal)) (st : Store) (n : Nat)
    (hunav : CacheService.is_available st = false) :
    CacheService.callRepeatedly cfg f args kwargs n st 0 = (st, n) ∧
    (CacheService.sync_wrapper cfg f args kwargs st 0).1 = f args kwargs ∧
    (∀ st' c e, (CacheService.sync_wrapper cfg f args kwargs st' c).1
        = Except.error e → f args kwargs = Except.error e) := by
  refine ⟨?_, ?_, ?_⟩
  · simpa using callRepeatedly_of_unavailable cfg f args kwargs st hunav n 0
  · simp [CacheService.sync_wrapper, hunav]
  · intro st' c e h
    exact sync_wrapper_error_from_f cfg f args kwargs st' c e h

/-- Witness for C3: a disconnected store, three calls, a concrete
operation; the counter reaches exactly 3 and the store is unchanged. -/
theorem C3_unavailable_store_bypass_witness :
    CacheService.callRepeatedly
        ⟨fun s => s, 86400, Option.none, false, "op", ⟨0, 0⟩⟩
        (fun _ _ => Except.ok (PyVal.int 7)) [] [] 3
        ⟨false, true, false, false, false, false, []⟩ 0
      = (⟨false, true, false, false, false, false, []⟩, 3) ∧
    (CacheService.sync_wrapper
        ⟨fun s => s, 86400, Option.none, false, "op", ⟨0, 0⟩⟩
        (fun _ _ => Except.ok (PyVal.int 7)) [] []
        ⟨false, true, false, false, false, false, []⟩ 0).1
      = Except.ok (PyVal.int 7) := by
  have h := C3_unavailable_store_bypass
      ⟨fun s => s, 86400, Option.none, false, "op", ⟨0, 0⟩⟩
      (fun _ _ => Except.ok (PyVal.int 7)) [] []
      ⟨false, true, false, false, false, false, []⟩ 3 rfl
  exact ⟨h.1, h.2.1⟩

/-- C2: with an available, healthy store and the key not yet cached,
two identical calls of the decorated operation invoke the wrapped
operation exactly once (on the first, missing call); the second call is
a hit returning a value structurally equal to the first call's result
(the store's pickle serialization round-trips values exactly). -/
theorem C2_cache_aside_round_trip (cfg : DecoConfig)
    (f : List PyVal → List (String × PyVal) → Except PyExn PyVal)
    (args : List PyVal) (kwargs : List (String × PyVal)) (st : Store) (v : PyVal)
    (hconn : st.connected = true) (hping : st.pingOk = true)
    (hgr : st.getRaises = false) (hsr : st.setRaises = false)
    (hpr : st.pickleRaises = false) (hur : st.unpickleRaises = false)
    (hcold : lookupKw st.data
        (CacheService.generate_key cfg.md5hex (cfg.pfx.getD cfg.qualname) args kwargs)
      = Option.none)
    (hf : f args kwargs = Except.ok v) :
    (CacheService.sync_wrapper cfg f args kwargs st 0).1 = Except.ok v ∧
    (CacheService.sync_wrapper cfg f args kwargs st 0).2.2 = 1 ∧
    CacheService.sync_wrapper cfg f args kwargs
        (CacheService.sync_wrapper cfg f args kwargs st 0).2.1
        (CacheService.sync_wrapper cfg f args kwargs st 0).2.2
      = (Except.ok v, (CacheService.sync_wrapper cfg f args kwargs st 0).2.1, 1) := by
  have hav : CacheService.is_available st = true := by
    simp [CacheService.is_available, hconn, hping]
  have h1 : CacheService.sync_wrapper cfg f args kwargs st 0
      = (Except.ok v,
         { st with data :=
             (CacheService.generate_key cfg.md5hex (cfg.pfx.getD cfg.qualname) args kwargs,
              v) :: st.data }, 1) := by
    simp [CacheService.sync_wrapper, CacheService.get, CacheService.set,
      hav, hgr, hur, hpr, hsr, hcold, hf]
  have h2 : CacheService.sync_wrapper cfg f args kwargs
      { st with data :=
          (CacheService.generate_key cfg.md5hex (cfg.pfx.getD cfg.qualname) args kwargs,
           v) :: st.data } 1
      = (Except.ok v,
         { st with data :=
             (CacheService.generate_key cfg.md5hex (cfg.pfx.getD cfg.qualname) args kwargs,
              v) :: st.data }, 1) := by
    simp [CacheService.sync_wrapper, CacheService.get, CacheService.is_available,
      hconn, hping, hgr, hur, lookupKw]
  refine ⟨by rw [h1], by rw [h1], ?_⟩
  rw [h1]
  exact h2

/-- Witness for C2 at a fresh healthy store and a concrete operation:
first call computes and stores, second call is a pure hit. -/
theorem C2_cache_aside_round_trip_witness :
    (CacheService.sync_wrapper
        ⟨fun s => s, 1800, Option.none, false, "op", ⟨0, 0⟩⟩
        (fun _ _ => Except.ok (PyVal.int 7)) [] []
        ⟨true, true, false, false, false, false, []⟩ 0).1
      = Except.ok (PyVal.int 7) ∧
    (CacheService.sync_wrapper
        ⟨fun s => s, 1800, Option.none, false, "op", ⟨0, 0⟩⟩
        (fun _ _ => Except.ok (PyVal.int 7)) [] []
        ⟨true, true, false, false, false, false, []⟩ 0).2.2 = 1 ∧
    CacheService.sync_wrapper
        ⟨fun s => s, 1800, Option.none, false, "op", ⟨0, 0⟩⟩
        (fun _ _ => Except.ok (PyVal.int 7)) [] []
        (CacheService.sync_wrapper
          ⟨fun s => s, 1800, Option.none, false, "op", ⟨0, 0⟩⟩
          (fun _ _ => Except.ok (PyVal.int 7)) [] []
          ⟨true, true, false, false, false, false, []⟩ 0).2.1
        (CacheService.sync_wrapper
          ⟨fun s => s, 1800, Option.none, false, "op", ⟨0, 0⟩⟩
          (fun _ _ => Except.ok (PyVal.int 7)) [] []
          ⟨true, true, false, false, false, false, []⟩ 0).2.2
      = (Except.ok (PyVal.int 7),
         (CacheService.sync_wrapper
           ⟨fun s => s, 1800, Option.none, false, "op", ⟨0, 0⟩⟩
           (fun _ _ => Except.ok (PyVal.int 7)) [] []
           ⟨true, true, false, false, false, false, []⟩ 0).2.1, 1) :=
  C2_cache_aside_round_trip
    ⟨fun s => s, 1800, Option.none, false, "op", ⟨0, 0⟩⟩
    (fun _ _ => Except.ok (PyVal.int 7)) [] []
    ⟨true, true, false, false, false, false, []⟩ (PyVal.int 7)
    rfl rfl rfl rfl rfl rfl rfl rfl

/-- Two key-sorted keyword-pair lists that are permutations of each
other, with no duplicate key names (Python dict keys are unique), are
equal. -/
theorem sorted_pairs_eq_of_perm (l₁ l₂ : List (String × PyVal))
    (hperm : l₁.Perm l₂)
    (hs₁ : l₁.Pairwise (fun a b => a.1 ≤ b.1))
    (hs₂ : l₂.Pairwise (fun a b => a.1 ≤ b.1))
    (hnd : (l₁.map Prod.fst).Nodup) : l₁ = l₂ := by
  induction l₁ generalizing l₂ with
  | nil => exact hperm.nil_eq
  | cons a t₁ ih =>
      cases l₂ with
      | nil => exact absurd hperm.symm (by simp)
      | cons b t₂ =>
          rw [List.map_cons] at hnd
          have hnd' := List.nodup_cons.mp hnd
          have hab : a = b := by
            have hmem : a ∈ b :: t₂ := hperm.mem_iff.mp (List.mem_cons_self a t₁)
            rcases List.mem_cons.mp hmem with h | h
            · exact h
            · have hba : b.1 ≤ a.1 := (List.pairwise_cons.mp hs₂).1 a h
              have hmem2 : b ∈ a :: t₁ :=
                hperm.symm.mem_iff.mp (List.mem_cons_self b t₂)
              rcases List.mem_cons.mp hmem2 with h2 | h2
              · exact h2.symm
              · have hab' : a.1 ≤ b.1 := (List.pairwise_cons.mp hs₁).1 b h2
                exfalso
                apply hnd'.1
                have : a.1 = b.1 := le_antisymm hab' hba
                rw [this]
                exact List.mem_map_of_mem Prod.fst h2
          subst hab
          have htail : t₁.Perm t₂ := hperm.cons_inv
          rw [ih t₂ htail (List.pairwise_cons.mp hs₁).2
            (List.pairwise_cons.mp hs₂).2 hnd'.2]

/-- Sorting keyword pairs by key name is invariant under permutation of
the input pairs (unique key names). -/
theorem mergeSort_kwargs_eq_of_perm (kw kw' : List (String × PyVal))
    (hperm : kw.Perm kw') (hnd : (kw.map Prod.fst).Nodup) :
    List.mergeSort kw (fun a b => decide (a.1 ≤ b.1))
      = List.mergeSort kw' (fun a b => decide (a.1 ≤ b.1)) := by
  have htrans : ∀ (a b c : String × PyVal),
      decide (a.1 ≤ b.1) → decide (b.1 ≤ c.1) → decide (a.1 ≤ c.1) := by
    intro a b c hab hbc
    exact decide_eq_true (le_trans (of_decide_eq_true hab) (of_decide_eq_true hbc))
  have htotal : ∀ (a b : String × PyVal),
      decide (a.1 ≤ b.1) || decide (b.1 ≤ a.1) := by
    intro a b
    rcases le_total a.1 b.1 with h | h <;> simp [h]
  apply sorted_pairs_eq_of_perm
  · exact (List.mergeSort_perm kw _).trans
      (hperm.trans (List.mergeSort_perm kw' _).symm)
  · exact (List.sorted_mergeSort htrans htotal kw).imp of_decide_eq_true
  · exact (List.sorted_mergeSort htrans htotal kw').imp of_decide_eq_true
  · exact (((List.mergeSort_perm kw _).map Prod.fst).nodup_iff).mpr hnd

/-- C8: key generation is deterministic — repeated evaluation of
`generate_key` on equal inputs yields the same key — and
keyword-order-independent: any permutation of the keyword pairs (key
names unique, as in a Python dict) yields the same key, because the
pairs are sorted by key name before serialization and hashing. -/
theorem C8_generate_key_deterministic (md5hex : String → String)
    (pfx : String) (args : List PyVal)
    (kw kw' : List (String × PyVal)) (hperm : kw.Perm kw')
    (hnd : (kw.map Prod.fst).Nodup) :
    CacheService.generate_key md5hex pfx args kw
      = CacheService.generate_key md5hex pfx args kw ∧
    CacheService.generate_key md5hex pfx args kw
      = CacheService.generate_key md5hex pfx args kw' := by
  refine ⟨rfl, ?_⟩
  have hsort := mergeSort_kwargs_eq_of_perm kw kw' hperm hnd
  have hlen : kw.length = kw'.length := hperm.length_eq
  have hempty : kw.isEmpty = kw'.isEmpty := by
    cases kw <;> cases kw' <;> simp_all
  simp only [CacheService.generate_key]
  rw [hsort, hempty]

/-- Witness for C8: swapping two keyword pairs yields the same key. -/
theorem C8_generate_key_deterministic_witness :
    CacheService.generate_key (fun s => s) "quote" [PyVal.int 1]
        [("b", PyVal.int 2), ("a", PyVal.int 1)]
      = CacheService.generate_key (fun s => s) "quote" [PyVal.int 1]
        [("b", PyVal.int 2), ("a", PyVal.int 1)] ∧
    CacheService.generate_key (fun s => s) "quote" [PyVal.int 1]
        [("b", PyVal.int 2), ("a", PyVal.int 1)]
      = CacheService.generate_key (fun s => s) "quote" [PyVal.int 1]
        [("a", PyVal.int 1), ("b", PyVal.int 2)] :=
  C8_generate_key_deterministic (fun s => s) "quote" [PyVal.int 1]
    [("b", PyVal.int 2), ("a", PyVal.int 1)]
    [("a", PyVal.int 1), ("b", PyVal.int 2)]
    (List.Perm.swap ("a", PyVal.int 1) ("b", PyVal.int 2) [])
    (by simp)

/-- C9: TTL resolution.  With `invalidate_at_midnight = false` the base
TTL is returned unchanged at any time of day; with `true` the result is
`min(base, seconds_until_next_utc_midnight)` and is never negative; at a
whole second the seconds-until-midnight term is exactly
`86400 - secOfDay`; concretely, `resolve_ttl 86400 true` at UTC 23:59:50
is `10` and at UTC 00:00:01 is `86399`. -/
theorem C9_ttl_resolution (base : Int) (t : UTCTime)
    (hsec : t.secOfDay < 86400) (hmic : t.micro < 1000000) (hbase : 0 ≤ base) :
    resolve_ttl base false t = base ∧
    resolve_ttl base true t
      = min base ((calculate_seconds_until_midnight t : Nat) : Int) ∧
    0 ≤ resolve_ttl base true t ∧
    (t.micro = 0 →
      ((calculate_seconds_until_midnight t : Nat) : Int) = 86400 - t.secOfDay) ∧
    resolve_ttl 86400 true ⟨23 * 3600 + 59 * 60 + 50, 0⟩ = 10 ∧
    resolve_ttl 86400 false ⟨23 * 3600 + 59 * 60 + 50, 0⟩ = 86400 ∧
    resolve_ttl 86400 true ⟨1, 0⟩ = 86399 := by
  refine ⟨rfl, rfl, ?_, ?_, by decide, by decide, by decide⟩
  · simp only [resolve_ttl, if_pos]
    exact le_min hbase (Int.ofNat_nonneg _)
  · intro h
    unfold calculate_seconds_until_midnight
    rw [h]
    have hrw : 86400 * 1000000 - (t.secOfDay * 1000000 + 0)
        = (86400 - t.secOfDay) * 1000000 := by omega
    rw [hrw, Nat.mul_div_cancel _ (by norm_num)]
    omega

/-- Witness for C9 at UTC 23:59:50 with the 1-day base TTL. -/
theorem C9_ttl_resolution_witness :
    resolve_ttl 86400 false ⟨86390, 0⟩ = 86400 ∧
    resolve_ttl 86400 true ⟨86390, 0⟩
      = min 86400 ((calculate_seconds_until_midnight ⟨86390, 0⟩ : Nat) : Int) ∧
    0 ≤ resolve_ttl 86400 true ⟨86390, 0⟩ ∧
    ((0 : Nat) = 0 →
      ((calculate_seconds_until_midnight ⟨86390, 0⟩ : Nat) : Int) = 86400 - 86390) ∧
    resolve_ttl 86400 true ⟨23 * 3600 + 59 * 60 + 50, 0⟩ = 10 ∧
    resolve_ttl 86400 false ⟨23 * 3600 + 59 * 60 + 50, 0⟩ = 86400 ∧
    resolve_ttl 86400 true ⟨1, 0⟩ = 86399 :=
  C9_ttl_resolution 86400 ⟨86390, 0⟩ (by decide) (by decide) (by decide)
